import Mathlib

/-!
Shallow embedding of the change-detection pipeline of `web_monitoring_bots`
(files `monitor.py` and `browser_automation.py`), together with theorems
settling the specification claims about it.

External collaborators (HTTP transport, the Playwright page, `hashlib.md5`,
`datetime.now`, the HTML parser) are modelled as parameters of the
environment; everything the repository's own code computes is translated
directly from the source.
-/

namespace WebMonitoringBots

/-! ## Notification channels (`monitor.py`, class `NotificationManager`) -/

/-- The notification channel keys recognised by `NotificationManager`
(`send_all_notifications` plus the provider chains of
`send_temporary_email` and `send_sms`). -/
inductive Channel where
  | mailgun
  | sendgrid
  | tempGmail
  | mailtrap
  | twilio
  | textbelt
  | smsapi
  | discord
  | telegram
  | slack
  | webhook
deriving DecidableEq, Repr

/-- `self.config`: which channel keys are present in the notifications
mapping.  Presence of a key is the sole enablement switch. -/
structure NotifConfig where
  mailgun : Bool
  sendgrid : Bool
  tempGmail : Bool
  mailtrap : Bool
  twilio : Bool
  textbelt : Bool
  smsapi : Bool
  discord : Bool
  telegram : Bool
  slack : Bool
  webhook : Bool
deriving DecidableEq, Repr

/-- Whether a channel key is present in the config mapping. -/
def NotifConfig.present (cfg : NotifConfig) : Channel → Bool
  | .mailgun => cfg.mailgun
  | .sendgrid => cfg.sendgrid
  | .tempGmail => cfg.tempGmail
  | .mailtrap => cfg.mailtrap
  | .twilio => cfg.twilio
  | .textbelt => cfg.textbelt
  | .smsapi => cfg.smsapi
  | .discord => cfg.discord
  | .telegram => cfg.telegram
  | .slack => cfg.slack
  | .webhook => cfg.webhook

/-- Result of one provider send: the transport succeeded, reported a
non-success status, or raised an exception (every `_send_*` helper can
raise; the callers catch). -/
inductive Outcome where
  | ok
  | failStatus
  | raised
deriving DecidableEq, Repr

/-- A transport collaborator: what each provider's send would do if
attempted for this event. -/
def Transport : Type := Channel → Outcome

/-- `send_temporary_email`: the `if "mailgun" in self.config / elif
"sendgrid" / elif "temp_gmail" / elif "mailtrap"` chain — at most one email
provider is selected, the first present in this fixed order. -/
def emailProvider (cfg : NotifConfig) : Option Channel :=
  if cfg.mailgun then some .mailgun
  else if cfg.sendgrid then some .sendgrid
  else if cfg.tempGmail then some .tempGmail
  else if cfg.mailtrap then some .mailtrap
  else none

/-- `send_sms`: the `if "twilio" / elif "textbelt" / elif "smsapi"` chain. -/
def smsProvider (cfg : NotifConfig) : Option Channel :=
  if cfg.twilio then some .twilio
  else if cfg.textbelt then some .textbelt
  else if cfg.smsapi then some .smsapi
  else none

/-- `send_temporary_email` as a trace of attempted (channel, outcome)
pairs.  The body is wrapped in `try/except`, so a raising provider is
recorded but nothing propagates. -/
def sendTemporaryEmail (cfg : NotifConfig) (t : Transport) : List (Channel × Outcome) :=
  match emailProvider cfg with
  | some c => [(c, t c)]
  | none => []

/-- `send_sms` as a trace of attempted (channel, outcome) pairs. -/
def sendSms (cfg : NotifConfig) (t : Transport) : List (Channel × Outcome) :=
  match smsProvider cfg with
  | some c => [(c, t c)]
  | none => []

/-- `send_discord`: guarded by key presence, `try/except` contained. -/
def sendDiscord (cfg : NotifConfig) (t : Transport) : List (Channel × Outcome) :=
  if cfg.discord then [(.discord, t .discord)] else []

/-- `send_telegram`. -/
def sendTelegram (cfg : NotifConfig) (t : Transport) : List (Channel × Outcome) :=
  if cfg.telegram then [(.telegram, t .telegram)] else []

/-- `send_slack`. -/
def sendSlack (cfg : NotifConfig) (t : Transport) : List (Channel × Outcome) :=
  if cfg.slack then [(.slack, t .slack)] else []

/-- `send_webhook`. -/
def sendWebhook (cfg : NotifConfig) (t : Transport) : List (Channel × Outcome) :=
  if cfg.webhook then [(.webhook, t .webhook)] else []

/-- `message[:150] + "..." if len(message) > 150 else message` — the
SMS truncation applied inside `send_all_notifications`. -/
def smsTruncate (message : String) : String :=
  if message.length > 150 then (message.take 150).append "..." else message

/-- `send_all_notifications`: the dispatch over all configured methods, as
the ordered trace of attempted (channel, outcome) pairs. -/
def sendAllNotifications (cfg : NotifConfig) (t : Transport) : List (Channel × Outcome) :=
  (if cfg.mailgun || cfg.sendgrid || cfg.tempGmail || cfg.mailtrap
    then sendTemporaryEmail cfg t else [])
  ++ (if cfg.twilio || cfg.textbelt || cfg.smsapi then sendSms cfg t else [])
  ++ sendDiscord cfg t
  ++ sendTelegram cfg t
  ++ sendSlack cfg t
  ++ sendWebhook cfg t

/-- How many times a channel appears in an attempt trace. -/
def countAttempts (c : Channel) (tr : List (Channel × Outcome)) : Nat :=
  (tr.map Prod.fst).count c

/-- The channels one dispatch actually attempts: the first configured email
provider, the first configured SMS provider, and every configured chat
channel. -/
def attemptedChannels (cfg : NotifConfig) : List Channel :=
  (emailProvider cfg).toList ++ (smsProvider cfg).toList
  ++ (if cfg.discord then [Channel.discord] else [])
  ++ (if cfg.telegram then [Channel.telegram] else [])
  ++ (if cfg.slack then [Channel.slack] else [])
  ++ (if cfg.webhook then [Channel.webhook] else [])

/-- Fixed priority order of the email provider chain. -/
def emailOrder : List Channel := [.mailgun, .sendgrid, .tempGmail, .mailtrap]

/-- Fixed priority order of the SMS provider chain. -/
def smsOrder : List Channel := [.twilio, .textbelt, .smsapi]

theorem emailProvider_eq_head (cfg : NotifConfig) :
    emailProvider cfg = (emailOrder.filter cfg.present).head? := by
  cases hm : cfg.mailgun <;> cases hs : cfg.sendgrid <;>
    cases hg : cfg.tempGmail <;> cases ht : cfg.mailtrap <;>
    simp [emailProvider, emailOrder, NotifConfig.present, hm, hs, hg, ht]

theorem smsProvider_eq_head (cfg : NotifConfig) :
    smsProvider cfg = (smsOrder.filter cfg.present).head? := by
  cases ht : cfg.twilio <;> cases hb : cfg.textbelt <;> cases ha : cfg.smsapi <;>
    simp [smsProvider, smsOrder, NotifConfig.present, ht, hb, ha]

theorem emailProvider_mem (cfg : NotifConfig) (c : Channel)
    (h : emailProvider cfg = some c) : c ∈ emailOrder := by
  unfold emailProvider at h
  split at h
  · simp_all [emailOrder]
  · split at h
    · simp_all [emailOrder]
    · split at h
      · simp_all [emailOrder]
      · split at h
        · simp_all [emailOrder]
        · simp_all

theorem smsProvider_mem (cfg : NotifConfig) (c : Channel)
    (h : smsProvider cfg = some c) : c ∈ smsOrder := by
  unfold smsProvider at h
  split at h
  · simp_all [smsOrder]
  · split at h
    · simp_all [smsOrder]
    · split at h
      · simp_all [smsOrder]
      · simp_all

theorem emailProvider_present (cfg : NotifConfig) (c : Channel)
    (h : emailProvider cfg = some c) : cfg.present c = true := by
  unfold emailProvider at h
  split at h
  next hm =>
    obtain rfl : Channel.mailgun = c := by injection h
    simpa [NotifConfig.present] using hm
  next =>
    split at h
    next hs =>
      obtain rfl : Channel.sendgrid = c := by injection h
      simpa [NotifConfig.present] using hs
    next =>
      split at h
      next hg =>
        obtain rfl : Channel.tempGmail = c := by injection h
        simpa [NotifConfig.present] using hg
      next =>
        split at h
        next ht =>
          obtain rfl : Channel.mailtrap = c := by injection h
          simpa [NotifConfig.present] using ht
        next => exact absurd h (by simp)

theorem smsProvider_present (cfg : NotifConfig) (c : Channel)
    (h : smsProvider cfg = some c) : cfg.present c = true := by
  unfold smsProvider at h
  split at h
  next hm =>
    obtain rfl : Channel.twilio = c := by injection h
    simpa [NotifConfig.present] using hm
  next =>
    split at h
    next hs =>
      obtain rfl : Channel.textbelt = c := by injection h
      simpa [NotifConfig.present] using hs
    next =>
      split at h
      next hg =>
        obtain rfl : Channel.smsapi = c := by injection h
        simpa [NotifConfig.present] using hg
      next => exact absurd h (by simp)

theorem emailGroup_map_fst (cfg : NotifConfig) (t : Transport) :
    ((if cfg.mailgun || cfg.sendgrid || cfg.tempGmail || cfg.mailtrap
      then sendTemporaryEmail cfg t else []).map Prod.fst)
      = (emailProvider cfg).toList := by
  by_cases h : (cfg.mailgun || cfg.sendgrid || cfg.tempGmail || cfg.mailtrap) = true
  · simp only [if_pos h, sendTemporaryEmail]
    cases hp : emailProvider cfg <;> simp
  · have h' := h
    simp only [Bool.or_eq_true, not_or, Bool.not_eq_true] at h'
    obtain ⟨⟨⟨h1, h2⟩, h3⟩, h4⟩ := h'
    have : emailProvider cfg = none := by simp [emailProvider, h1, h2, h3, h4]
    simp [h, this]

theorem smsGroup_map_fst (cfg : NotifConfig) (t : Transport) :
    ((if cfg.twilio || cfg.textbelt || cfg.smsapi
      then sendSms cfg t else []).map Prod.fst)
      = (smsProvider cfg).toList := by
  by_cases h : (cfg.twilio || cfg.textbelt || cfg.smsapi) = true
  · simp only [if_pos h, sendSms]
    cases hp : smsProvider cfg <;> simp
  · have h' := h
    simp only [Bool.or_eq_true, not_or, Bool.not_eq_true] at h'
    obtain ⟨⟨h1, h2⟩, h3⟩ := h'
    have : smsProvider cfg = none := by simp [smsProvider, h1, h2, h3]
    simp [h, this]

/-- The attempted-channel sequence of one dispatch, exactly. -/
theorem sendAll_map_fst (cfg : NotifConfig) (t : Transport) :
    (sendAllNotifications cfg t).map Prod.fst = attemptedChannels cfg := by
  have hd : (sendDiscord cfg t).map Prod.fst
      = (if cfg.discord then [Channel.discord] else []) := by
    unfold sendDiscord; split <;> simp
  have ht : (sendTelegram cfg t).map Prod.fst
      = (if cfg.telegram then [Channel.telegram] else []) := by
    unfold sendTelegram; split <;> simp
  have hsl : (sendSlack cfg t).map Prod.fst
      = (if cfg.slack then [Channel.slack] else []) := by
    unfold sendSlack; split <;> simp
  have hw : (sendWebhook cfg t).map Prod.fst
      = (if cfg.webhook then [Channel.webhook] else []) := by
    unfold sendWebhook; split <;> simp
  simp only [sendAllNotifications, attemptedChannels, List.map_append,
    emailGroup_map_fst, smsGroup_map_fst, hd, ht, hsl, hw]

/-- Outcomes recorded in the trace are the transport's own verdicts. -/
theorem sendAll_outcomes (cfg : NotifConfig) (t : Transport) :
    ∀ p ∈ sendAllNotifications cfg t, p.2 = t p.1 := by
  intro p hp
  simp only [sendAllNotifications, List.mem_append] at hp
  rcases hp with ((((hp | hp) | hp) | hp) | hp) | hp
  · split at hp
    · simp only [sendTemporaryEmail] at hp
      split at hp <;> simp_all
    · simp_all
  · split at hp
    · simp only [sendSms] at hp
      split at hp <;> simp_all
    · simp_all
  · simp only [sendDiscord] at hp; split at hp <;> simp_all
  · simp only [sendTelegram] at hp; split at hp <;> simp_all
  · simp only [sendSlack] at hp; split at hp <;> simp_all
  · simp only [sendWebhook] at hp; split at hp <;> simp_all

/-- The full fixed channel order; `attemptedChannels` is always one of its
sublists. -/
def channelOrder : List Channel :=
  [.mailgun, .sendgrid, .tempGmail, .mailtrap, .twilio, .textbelt, .smsapi,
   .discord, .telegram, .slack, .webhook]

theorem attemptedChannels_sublist (cfg : NotifConfig) :
    (attemptedChannels cfg).Sublist channelOrder := by
  have he : ((emailProvider cfg).toList).Sublist emailOrder := by
    cases hp : emailProvider cfg with
    | none => simp
    | some c =>
      simpa using List.singleton_sublist.mpr (emailProvider_mem cfg c hp)
  have hs : ((smsProvider cfg).toList).Sublist smsOrder := by
    cases hp : smsProvider cfg with
    | none => simp
    | some c =>
      simpa using List.singleton_sublist.mpr (smsProvider_mem cfg c hp)
  have hif : ∀ (b : Bool) (c : Channel), (if b then [c] else []).Sublist [c] := by
    intro b c; cases b <;> simp
  have hfull : channelOrder
      = ((((emailOrder ++ smsOrder) ++ [Channel.discord]) ++ [Channel.telegram])
          ++ [Channel.slack]) ++ [Channel.webhook] := by
    simp [channelOrder, emailOrder, smsOrder]
  rw [hfull]
  unfold attemptedChannels
  exact ((((he.append hs).append (hif _ _)).append (hif _ _)).append
    (hif _ _)).append (hif _ _)

theorem attemptedChannels_nodup (cfg : NotifConfig) :
    (attemptedChannels cfg).Nodup :=
  (attemptedChannels_sublist cfg).nodup (by decide)

/-! ## String helpers (Python `in`, `.lower()`, `re.sub(r"\s+", " ", ·)`) -/

/-- Does `needle` occur at the head of `hay`? -/
def charsStartWith : List Char → List Char → Bool
  | [], _ => true
  | _ :: _, [] => false
  | n :: ns, h :: hs => n == h && charsStartWith ns hs

/-- Does `needle` occur anywhere in `hay`?  (Python's `needle in hay`.) -/
def charsContain (needle : List Char) : List Char → Bool
  | [] => needle.isEmpty
  | h :: hs => charsStartWith needle (h :: hs) || charsContain needle hs

/-- Python `needle in hay` on strings. -/
def strContains (hay needle : String) : Bool :=
  charsContain needle.data hay.data

/-- Python `str.lower()` (character-wise, as the source uses it on the
keyword and candidate texts). -/
def strLower (s : String) : String := ⟨s.data.map Char.toLower⟩

/-- One step of collapsing whitespace runs: every maximal run of whitespace
becomes a single space. -/
def squashWs : List Char → List Char
  | [] => []
  | [c] => if c.isWhitespace then [' '] else [c]
  | c1 :: c2 :: rest =>
    if c1.isWhitespace && c2.isWhitespace then squashWs (c2 :: rest)
    else (if c1.isWhitespace then ' ' else c1) :: squashWs (c2 :: rest)

/-- Python `str.strip()` (no argument): drop whitespace from both ends. -/
def strTrim (s : String) : String :=
  ⟨((s.data.dropWhile Char.isWhitespace).reverse.dropWhile Char.isWhitespace).reverse⟩

/-- Worker for `strSplitOn`; the fuel is an upper bound on the number of
steps (one per character of the haystack) so that the recursion is
structural. -/
def splitFuel (sep : List Char) : Nat → List Char → List (List Char)
  | _, [] => [[]]
  | 0, hay => [hay]
  | Nat.succ fuel, c :: rest =>
    if charsStartWith sep (c :: rest) && !sep.isEmpty then
      [] :: splitFuel sep fuel (List.drop (sep.length - 1) rest)
    else
      match splitFuel sep fuel rest with
      | [] => [[c]]
      | cur :: others => (c :: cur) :: others

/-- Python `s.split(sep)` for a non-empty separator: split at every
occurrence, keeping empty fields. -/
def strSplitOn (s sep : String) : List String :=
  (splitFuel sep.data s.data.length s.data).map (fun l => ⟨l⟩)

/-- Python `s.startswith(p)`. -/
def pyStartsWith (s p : String) : Bool := charsStartWith p.data s.data

/-- Python `s.endswith(p)`. -/
def pyEndsWith (s p : String) : Bool := charsStartWith p.data.reverse s.data.reverse

/-- Python `s[:-n]` for `0 < n ≤ len(s)`: drop the last `n` characters. -/
def pyDropRight (s : String) (n : Nat) : String := ⟨s.data.take (s.data.length - n)⟩

/-- `re.sub(r"\s+", " ", text).strip()` — whitespace-collapse then trim. -/
def collapseWs (s : String) : String := strTrim (String.mk (squashWs s.data))

/-! ## Extractor, free-text mode
(`monitor.py`, `EnhancedWebsiteMonitor.extract_target_text`) -/

/-- A parsed HTML node, as delivered by the parser collaborator
(`BeautifulSoup(html_content, "html.parser")`). -/
inductive Node where
  | text (s : String)
  | elem (tag : String) (children : List Node)
deriving Repr

mutual

/-- All text-node strings of a node, in document order
(`soup.find_all(text=True)` restricted to this subtree). -/
def nodeStrings : Node → List String
  | .text s => [s]
  | .elem _ cs => nodesStrings cs

/-- All text-node strings under a node list, in document order. -/
def nodesStrings : List Node → List String
  | [] => []
  | n :: ns => nodeStrings n ++ nodesStrings ns

end

mutual

/-- All elements with the given tag in a subtree, in document order
(`soup.find_all(tag)` restricted to this subtree). -/
def nodeFindAll (tag : String) : Node → List Node
  | .text _ => []
  | .elem t cs => (if t = tag then [Node.elem t cs] else []) ++ nodesFindAll tag cs

/-- All elements with the given tag under a node list, in document order. -/
def nodesFindAll (tag : String) : List Node → List Node
  | [] => []
  | n :: ns => nodeFindAll tag n ++ nodesFindAll tag ns

end

/-- `elem.get_text(strip=True)`: concatenation of the stripped descendant
strings, in document order. -/
def getTextStrip (n : Node) : String :=
  String.join ((nodeStrings n).map strTrim)

/-- The candidate test shared by both passes:
`len(text) > min_length and all(keyword.lower() in text.lower() for keyword
in keywords)`. -/
def candidateOk (keywords : List String) (minLength : Nat) (text : String) : Bool :=
  decide (minLength < text.length)
    && keywords.all (fun k => strContains (strLower text) (strLower k))

/-- First pass: loop over `soup.find_all(text=True)`, strip each string,
return the whitespace-collapsed text of the first match. -/
def textPass (keywords : List String) (minLength : Nat) : List String → Option String
  | [] => none
  | s :: rest =>
    let text := strTrim s
    if candidateOk keywords minLength text then some (collapseWs text)
    else textPass keywords minLength rest

/-- Inner loop of the second pass: scan the elements of one tag type by
`get_text(strip=True)`. -/
def elemPass (keywords : List String) (minLength : Nat) : List Node → Option String
  | [] => none
  | e :: rest =>
    let text := getTextStrip e
    if candidateOk keywords minLength text then some (collapseWs text)
    else elemPass keywords minLength rest

/-- The fallback tag list of the second pass, in source order. -/
def fallbackTags : List String := ["p", "div", "span", "article"]

/-- Outer loop of the second pass: `for tag in ["p", "div", "span",
"article"]`. -/
def tagPass (keywords : List String) (minLength : Nat) (doc : List Node) :
    List String → Option String
  | [] => none
  | tag :: rest =>
    match elemPass keywords minLength (nodesFindAll tag doc) with
    | some r => some r
    | none => tagPass keywords minLength doc rest

/-- `extract_target_text`: first pass over all text nodes, then the
tag-restricted second pass, else `None`. -/
def extractTargetText (keywords : List String) (minLength : Nat)
    (doc : List Node) : Option String :=
  match textPass keywords minLength (nodesStrings doc) with
  | some r => some r
  | none => tagPass keywords minLength doc fallbackTags

/-- The claim's description of the extractor, written from the spec's
words: the whitespace-collapsed text of the first (document-order) text
node whose trimmed text passes the length/keyword test; failing that, the
first matching element of tag types p, div, span, article by full
descendant text; failing both, `NotFound`. -/
def extractTargetTextSpec (keywords : List String) (minLength : Nat)
    (doc : List Node) : Option String :=
  match ((nodesStrings doc).map strTrim).find? (candidateOk keywords minLength) with
  | some t => some (collapseWs t)
  | none =>
    match (((fallbackTags.map (fun tag => nodesFindAll tag doc)).flatten).map
        getTextStrip).find? (candidateOk keywords minLength) with
    | some t => some (collapseWs t)
    | none => none

theorem textPass_eq_find (keywords : List String) (minLength : Nat)
    (ss : List String) :
    textPass keywords minLength ss
      = ((ss.map strTrim).find? (candidateOk keywords minLength)).map collapseWs := by
  induction ss with
  | nil => rfl
  | cons s rest ih =>
    simp only [textPass, List.map_cons, List.find?_cons]
    by_cases h : candidateOk keywords minLength (strTrim s)
    · simp [h]
    · simp only [h, if_neg, Bool.false_eq_true, ih]
      simp [h]

theorem elemPass_eq_find (keywords : List String) (minLength : Nat)
    (es : List Node) :
    elemPass keywords minLength es
      = ((es.map getTextStrip).find? (candidateOk keywords minLength)).map collapseWs := by
  induction es with
  | nil => rfl
  | cons e rest ih =>
    simp only [elemPass, List.map_cons, List.find?_cons]
    by_cases h : candidateOk keywords minLength (getTextStrip e)
    · simp [h]
    · simp only [h, if_neg, Bool.false_eq_true, ih]
      simp [h]

theorem tagPass_eq_find (keywords : List String) (minLength : Nat)
    (doc : List Node) (tags : List String) :
    tagPass keywords minLength doc tags
      = ((((tags.map (fun tag => nodesFindAll tag doc)).flatten).map
          getTextStrip).find? (candidateOk keywords minLength)).map collapseWs := by
  induction tags with
  | nil => rfl
  | cons tag rest ih =>
    simp only [tagPass, List.map_cons, List.flatten, List.map_append,
      List.find?_append, elemPass_eq_find]
    cases h : ((nodesFindAll tag doc).map getTextStrip).find?
        (candidateOk keywords minLength) with
    | some r => simp [h]
    | none => simp [h, ih]

/-! ## Fingerprint cache and change detector
(`monitor.py`, `EnhancedWebsiteMonitor`) -/

/-- The persisted cache JSON object: `{text, hash, timestamp, url}`, every
field optional at read time (an older or foreign file may lack some). -/
structure CacheDict where
  text : Option String
  hash : Option String
  timestamp : Option String
  url : Option String
deriving DecidableEq, Repr

/-- What the cache file read can find: no file, unparsable content, or a
parsed JSON object. -/
inductive CacheRead where
  | missing
  | corrupt
  | parsed (d : CacheDict)
deriving DecidableEq, Repr

/-- `get_cached_content`: `None` when the file is absent, `None` when
`json.load` raises (logged, swallowed), otherwise the parsed object. -/
def getCachedContent : CacheRead → Option CacheDict
  | .missing => none
  | .corrupt => none
  | .parsed d => some d

/-- `save_cached_content`: the object written to the cache file. -/
def saveCachedContent (text textHash now url : String) : CacheDict :=
  { text := some text, hash := some textHash, timestamp := some now, url := some url }

/-- One recorded call to `send_all_notifications`. -/
structure DispatchCall where
  subject : String
  message : String
deriving DecidableEq, Repr

/-- The external effects of one `check_for_changes` cycle: cache writes and
dispatcher invocations, in order. -/
structure CycleResult where
  writes : List CacheDict
  dispatches : List DispatchCall
deriving DecidableEq, Repr

/-- The subject line used on a change. -/
def changeSubject : String := "🚨 Website Update Detected - PUC Swimming Registration"

/-- The f-string message built on a change, embedding URL, timestamp,
previous content and new content. -/
def buildChangeMessage (url now prev current : String) : String :=
  "Content change detected on the PUC swimming website!\n\nURL: " ++ url
    ++ "\nTimestamp: " ++ now ++ "\n\nPREVIOUS CONTENT:\n" ++ prev
    ++ "\n\nNEW CONTENT:\n" ++ current
    ++ "\n\nThis is an automated alert from your website monitor.\n"

/-- The collaborators and configuration one cycle runs against:
`fetch_page_content`'s result (`None` on `RequestException`), the
`BeautifulSoup` parser, the configured keywords/threshold/url, the clock
(`datetime.now`), the digest function (`hashlib.md5(·).hexdigest()`), and
the current state of the cache file. -/
structure MonitorEnv where
  fetched : Option String
  parseHtml : String → List Node
  keywords : List String
  minLength : Nat
  url : String
  now : String
  hashFn : String → String
  cache : CacheRead

/-- `EnhancedWebsiteMonitor.check_for_changes`, translated clause by
clause.  `if not html_content` and `if not current_text` are Python
falsiness tests, so the empty string aborts like `None`. -/
def checkForChanges (env : MonitorEnv) : CycleResult :=
  match env.fetched with
  | none => { writes := [], dispatches := [] }
  | some html =>
    if html = "" then { writes := [], dispatches := [] }
    else
      match extractTargetText env.keywords env.minLength (env.parseHtml html) with
      | none => { writes := [], dispatches := [] }
      | some currentText =>
        if currentText = "" then { writes := [], dispatches := [] }
        else
          let currentHash := env.hashFn currentText
          match getCachedContent env.cache with
          | none =>
            { writes := [saveCachedContent currentText currentHash env.now env.url],
              dispatches := [] }
          | some cachedData =>
            let cachedHash := cachedData.hash
            let cachedText := cachedData.text.getD ""
            if some currentHash ≠ cachedHash then
              { writes := [saveCachedContent currentText currentHash env.now env.url],
                dispatches := [⟨changeSubject,
                  buildChangeMessage env.url env.now cachedText currentText⟩] }
            else
              { writes := [], dispatches := [] }

/-! ## Playwright monitor variant
(`browser_automation.py`, `main` and `PlaywrightWebMonitor`) -/

/-- The browser variant's cache JSON object (`content_cache_2.json`):
`{text, hash, timestamp}`. -/
structure BCacheDict where
  text : Option String
  hash : Option String
  timestamp : Option String
deriving DecidableEq, Repr

/-- Read outcomes for the browser variant's cache file. -/
inductive BCacheRead where
  | missing
  | corrupt
  | parsed (d : BCacheDict)
deriving DecidableEq, Repr

/-- `PlaywrightWebMonitor.get_cached_content`: same lenient read. -/
def browserGetCached : BCacheRead → Option BCacheDict
  | .missing => none
  | .corrupt => none
  | .parsed d => some d

/-- `PlaywrightWebMonitor.save_cached_content`. -/
def browserSave (text textHash now : String) : BCacheDict :=
  { text := some text, hash := some textHash, timestamp := some now }

/-- `send_telegram(...)` followed by `send_discord(...)` — each checks its
key's presence internally. -/
def notifyBoth (cfg : NotifConfig) (msg : String) : List (Channel × String) :=
  (if cfg.telegram then [(Channel.telegram, msg)] else [])
    ++ (if cfg.discord then [(Channel.discord, msg)] else [])

/-- Effects of the comparison phase of `browser_automation.main`. -/
structure BrowserResult where
  writes : List BCacheDict
  notifs : List (Channel × String)
deriving DecidableEq, Repr

/-- Environment of that phase: the extracted `combined_string`, the cache
state, the clock and digest collaborators, and the notification config. -/
structure BrowserEnv where
  combined : String
  cache : BCacheRead
  now : String
  hashFn : String → String
  cfg : NotifConfig

/-- The compare/persist/notify block of `browser_automation.main` (the
`else:` clause of its `try`), translated clause by clause.  `if not
cached_content` is a Python falsiness test (`None` or an empty dict);
`cached_content["hash"]` and `cached_content["timestamp"]` are direct
subscripts that raise `KeyError` when the field is missing. -/
def browserMain (env : BrowserEnv) : Except String BrowserResult :=
  let currentHash := env.hashFn env.combined
  match browserGetCached env.cache with
  | none => .ok { writes := [browserSave env.combined currentHash env.now], notifs := [] }
  | some d =>
    if d.text.isNone && d.hash.isNone && d.timestamp.isNone then
      .ok { writes := [browserSave env.combined currentHash env.now], notifs := [] }
    else
      match d.hash with
      | none => .error "KeyError: hash"
      | some cachedHash =>
        if cachedHash ≠ currentHash then
          .ok { writes := [browserSave env.combined currentHash env.now],
                notifs := notifyBoth env.cfg
                  ("New PUC Natation courses found:\n" ++ env.combined) }
        else
          match d.timestamp with
          | none => .error "KeyError: timestamp"
          | some ts =>
            .ok { writes := [browserSave env.combined currentHash env.now],
                  notifs := notifyBoth env.cfg
                    ("No changes detected in course offerings\n" ++ ts) }

/-! ## Extractor, structured mode
(`browser_automation.py`, `PlaywrightWebMonitor.extract_course_headings`) -/

/-- One surviving candidate from the selector-collection loop: the selector
that found it, the element's stripped text, and the best-effort
price/location/dates enrichment looked up from its parent card by the page
collaborator. -/
structure Candidate where
  selector : String
  text : String
  price : Option String
  location : Option String
  dates : Option String
deriving DecidableEq, Repr

/-- A `course_info` dict.  A key that was never assigned is `none`. -/
structure Course where
  heading : String
  selectorUsed : String
  rawText : String
  activity : Option String
  code : Option String
  description : Option String
  schedule : Option String
  price : Option String
  location : Option String
  dates : Option String
deriving DecidableEq, Repr, Inhabited

/-- `parts = [part.strip() for part in heading.split("|")]`. -/
def splitPartsOf (heading : String) : List String :=
  (strSplitOn heading "|").map strTrim

/-- The positional assignment block: executed only when the split has at
least two parts; later fields keep their previous values when the split is
short. -/
def assignParts (c : Course) (parts : List String) : Course :=
  if 2 ≤ parts.length then
    { c with
      activity := parts[0]?,
      code := parts[1]?,
      description := if 3 ≤ parts.length then parts[2]? else c.description,
      schedule := if 4 ≤ parts.length then parts[3]? else c.schedule }
  else c

/-- Building `course_info` from a found element: heading/selector/raw text,
the first positional parse, and the enrichment fields. -/
def initCourse (cand : Candidate) : Course :=
  assignParts
    { heading := cand.text, selectorUsed := cand.selector, rawText := cand.text,
      activity := none, code := none, description := none, schedule := none,
      price := cand.price, location := cand.location, dates := cand.dates }
    (splitPartsOf cand.text)

/-- The heading-cleaning block: cut at `"À partir de"` when present; cut
before the first `"€"` when the heading does not start with `"€"` and the
part before it still holds a `"|"`; drop a trailing `"S\x27inscrire"`. -/
def cleanHeading (heading : String) : String :=
  let h1 :=
    if strContains heading "À partir de" then
      strTrim ((strSplitOn heading "À partir de").headD "")
    else heading
  let h2 :=
    if strContains h1 "€" && !(pyStartsWith h1 "€") then
      let parts := strSplitOn h1 "€"
      if 1 < parts.length && strContains (parts.headD "") "|" then
        strTrim (parts.headD "")
      else h1
    else h1
  if pyEndsWith h2 "S\x27inscrire" then strTrim (pyDropRight h2 10) else h2

/-- One iteration of the clean/re-parse loop body applied to a course:
clean the heading, update `heading`/`raw_text`, re-run the positional
parse on the cleaned heading. -/
def cleanCourse (c : Course) : Course :=
  let h := cleanHeading c.heading
  assignParts { c with heading := h, rawText := h } (splitPartsOf h)

/-- `f"{activity}-{code}-{description}"` with `.get(·, "")` defaults — the
identity key used for deduplication. -/
def courseKey (c : Course) : String :=
  (c.activity.getD "") ++ "-" ++ (c.code.getD "") ++ "-" ++ (c.description.getD "")

/-- The dedup loop over already-cleaned courses: keep a course when its key
is unseen and its stripped heading is longer than 10 characters; only kept
courses enter `seen_courses`. -/
def dedupLoop (seen : List String) : List Course → List Course
  | [] => []
  | c :: rest =>
    if !(seen.contains (courseKey c)) && decide (10 < (strTrim c.heading).length) then
      c :: dedupLoop (courseKey c :: seen) rest
    else
      dedupLoop seen rest

/-- `extract_course_headings` from the candidate list onward: build every
`course_info`, then clean and deduplicate. -/
def extractRecords (cands : List Candidate) : List Course :=
  dedupLoop [] (cands.map (fun cd => cleanCourse (initCourse cd)))

/-- Keep the first occurrence of each key, in order — the dedup described
by the spec. -/
def keepFirstByKey (seen : List String) : List Course → List Course
  | [] => []
  | c :: rest =>
    if seen.contains (courseKey c) then keepFirstByKey seen rest
    else c :: keepFirstByKey (courseKey c :: seen) rest

/-- The claim's description of the clean/dedup stage, written from the
spec's words: discard every record whose cleaned heading is 10 characters
or shorter, then keep the first occurrence of each
`(activity, code, description)` key in document order. -/
def extractRecordsSpec (cands : List Candidate) : List Course :=
  keepFirstByKey []
    (((cands.map (fun cd => cleanCourse (initCourse cd))).filter
      (fun c => decide (10 < (strTrim c.heading).length))))

theorem dedupLoop_eq_keepFirst (seen : List String) (cs : List Course) :
    dedupLoop seen cs
      = keepFirstByKey seen (cs.filter (fun c => decide (10 < (strTrim c.heading).length))) := by
  induction cs generalizing seen with
  | nil => rfl
  | cons c rest ih =>
    by_cases hlen : (10 < (strTrim c.heading).length)
    · by_cases hseen : seen.contains (courseKey c)
      · simp [dedupLoop, keepFirstByKey, hlen, hseen, ih]
      · simp [dedupLoop, keepFirstByKey, hlen, hseen, ih]
    · simp [dedupLoop, keepFirstByKey, hlen, ih]

theorem dedupLoop_keys_not_seen (seen : List String) (cs : List Course) :
    ∀ c ∈ dedupLoop seen cs, ¬ seen.contains (courseKey c) := by
  induction cs generalizing seen with
  | nil => intro c hc; simp [dedupLoop] at hc
  | cons c rest ih =>
    intro d hd
    simp only [dedupLoop] at hd
    split at hd
    next h =>
      simp only [Bool.and_eq_true, Bool.not_eq_true'] at h
      rcases List.mem_cons.mp hd with rfl | hd'
      · intro hc
        rw [h.1] at hc
        exact Bool.false_ne_true hc
      · have h2 := ih (courseKey c :: seen) d hd'
        intro hcon
        apply h2
        simp only [List.contains_cons, Bool.or_eq_true]
        exact Or.inr hcon
    next => exact ih seen d hd

theorem dedupLoop_keys_nodup (seen : List String) (cs : List Course) :
    ((dedupLoop seen cs).map courseKey).Nodup := by
  induction cs generalizing seen with
  | nil => simp [dedupLoop]
  | cons c rest ih =>
    simp only [dedupLoop]
    split
    next h =>
      simp only [List.map_cons, List.nodup_cons]
      refine ⟨?_, ih _⟩
      intro hmem
      obtain ⟨d, hd, hkey⟩ := List.mem_map.mp hmem
      have := dedupLoop_keys_not_seen (courseKey c :: seen) rest d hd
      exact this (by simp [hkey])
    next => exact ih seen

theorem dedupLoop_heading_long (seen : List String) (cs : List Course) :
    ∀ c ∈ dedupLoop seen cs, 10 < (strTrim c.heading).length := by
  induction cs generalizing seen with
  | nil => intro c hc; simp [dedupLoop] at hc
  | cons c rest ih =>
    intro d hd
    simp only [dedupLoop] at hd
    split at hd
    next h =>
      simp only [Bool.and_eq_true, Bool.not_eq_true'] at h
      rcases List.mem_cons.mp hd with rfl | hd'
      · exact of_decide_eq_true h.2
      · exact ih _ d hd'
    next => exact ih seen d hd

/-! ## Helper lemmas -/

theorem charsStartWith_self_append (xs ys : List Char) :
    charsStartWith xs (xs ++ ys) = true := by
  induction xs with
  | nil => rfl
  | cons c cs ih => simp [charsStartWith, ih]

theorem charsContain_of_startsWith (n h : List Char)
    (hs : charsStartWith n h = true) : charsContain n h = true := by
  cases h with
  | nil =>
    cases n with
    | nil => rfl
    | cons c cs => simp [charsStartWith] at hs
  | cons c cs => simp [charsContain, hs]

theorem charsContain_append_right (n h1 h2 : List Char)
    (hc : charsContain n h2 = true) : charsContain n (h1 ++ h2) = true := by
  induction h1 with
  | nil => simpa using hc
  | cons c cs ih => simp [charsContain, ih]

theorem charsContain_here (n post : List Char) :
    charsContain n (n ++ post) = true :=
  charsContain_of_startsWith _ _ (charsStartWith_self_append n post)

theorem mem_attempted_present (cfg : NotifConfig) (c : Channel)
    (h : c ∈ attemptedChannels cfg) : cfg.present c = true := by
  simp only [attemptedChannels, List.mem_append] at h
  rcases h with ((((h | h) | h) | h) | h) | h
  · cases hp : emailProvider cfg <;> simp [hp] at h
    subst h; exact emailProvider_present cfg c hp
  · cases hp : smsProvider cfg <;> simp [hp] at h
    subst h; exact smsProvider_present cfg c hp
  · cases hd : cfg.discord <;> simp [hd] at h
    subst h; simpa [NotifConfig.present] using hd
  · cases ht : cfg.telegram <;> simp [ht] at h
    subst h; simpa [NotifConfig.present] using ht
  · cases hs : cfg.slack <;> simp [hs] at h
    subst h; simpa [NotifConfig.present] using hs
  · cases hw : cfg.webhook <;> simp [hw] at h
    subst h; simpa [NotifConfig.present] using hw

theorem count_attempted_le_one (cfg : NotifConfig) (t : Transport) (c : Channel) :
    countAttempts c (sendAllNotifications cfg t) ≤ 1 := by
  rw [countAttempts, sendAll_map_fst]
  exact List.nodup_iff_count_le_one.mp (attemptedChannels_nodup cfg) c

theorem count_attempted_eq_one_iff (cfg : NotifConfig) (t : Transport) (c : Channel) :
    countAttempts c (sendAllNotifications cfg t) = 1 ↔ c ∈ attemptedChannels cfg := by
  rw [countAttempts, sendAll_map_fst]
  constructor
  · intro h
    exact List.count_pos_iff.mp (by omega)
  · intro h
    have h1 := List.count_pos_iff.mpr h
    have h2 := List.nodup_iff_count_le_one.mp (attemptedChannels_nodup cfg) c
    omega


/-! ## Claim theorems -/

/-- C6: for every document, `extract_target_text` returns the
whitespace-collapsed text of the first (document-order) text node whose
trimmed length exceeds `min_length` and which contains every configured
keyword as a case-insensitive substring; if no raw text node matches it
repeats the scan over elements of tag types p, div, span, article using
each element's full descendant text; if neither pass matches it returns
`NotFound` (`None`) rather than raising. -/
theorem C6_extract_target_text (keywords : List String) (minLength : Nat)
    (doc : List Node) :
    extractTargetText keywords minLength doc
      = extractTargetTextSpec keywords minLength doc := by
  unfold extractTargetText extractTargetTextSpec
  rw [textPass_eq_find, tagPass_eq_find]
  have hmap : (fallbackTags.map (fun tag => nodesFindAll tag doc))
      = (List.map (fun tag => nodesFindAll tag doc) fallbackTags) := rfl
  cases h1 : ((nodesStrings doc).map strTrim).find?
      (candidateOk keywords minLength) with
  | some t => simp
  | none =>
    simp only [Option.map_none]
    cases h2 : (((fallbackTags.map (fun tag => nodesFindAll tag doc)).flatten).map
        getTextStrip).find? (candidateOk keywords minLength) with
    | some t => simp [h2]
    | none => simp [h2]

/-- C7: structured extraction is deterministic (a pure function of the
candidate list) and deduplicated — the clean/dedup stage of
`extract_course_headings` equals the spec's pipeline (discard records whose
cleaned heading is 10 characters or shorter, then keep the first occurrence
per `(activity, code, description)` key in document order), no key appears
twice in the output, and every surviving record's cleaned heading is longer
than 10 characters. -/
theorem C7_extract_records_dedup (cands : List Candidate) :
    extractRecords cands = extractRecordsSpec cands
    ∧ ((extractRecords cands).map courseKey).Nodup
    ∧ (∀ c, c ∈ extractRecords cands → 10 < (strTrim c.heading).length) := by
  refine ⟨?_, ?_, ?_⟩
  · unfold extractRecords extractRecordsSpec
    exact dedupLoop_eq_keepFirst [] _
  · exact dedupLoop_keys_nodup [] _
  · exact dedupLoop_heading_long [] _

/-- Witness for C7 at a concrete candidate list containing a duplicated
`(activity, code, description)` key. -/
theorem C7_extract_records_dedup_witness :
    ((extractRecords
        [⟨"s1", "NATATION | N123 | Initiation | Lundi 18h", none, none, none⟩,
         ⟨"s2", "NATATION | N123 | Initiation | Mardi 19h", none, none, none⟩]).map
      courseKey).Nodup
    ∧ 10 < (strTrim ((extractRecords
        [⟨"s1", "NATATION | N123 | Initiation | Lundi 18h", none, none, none⟩,
         ⟨"s2", "NATATION | N123 | Initiation | Mardi 19h", none, none, none⟩]).headD
          default).heading).length := by
  have h := C7_extract_records_dedup
    [⟨"s1", "NATATION | N123 | Initiation | Lundi 18h", none, none, none⟩,
     ⟨"s2", "NATATION | N123 | Initiation | Mardi 19h", none, none, none⟩]
  exact ⟨h.2.1, h.2.2 _ (by decide)⟩

/-- C2 (counterexample): with both `mailgun` and `sendgrid` configured,
`sendgrid` is present in the configuration yet is never attempted — the
email chain's `elif` stops at `mailgun` — refuting "dispatch attempts every
channel whose key is present in the configuration exactly once". -/
theorem C2_counterexample :
    NotifConfig.present
        ⟨true, true, false, false, false, false, false, false, false, false, false⟩
        Channel.sendgrid = true
    ∧ countAttempts Channel.sendgrid
        (sendAllNotifications
          ⟨true, true, false, false, false, false, false, false, false, false, false⟩
          (fun _ => Outcome.ok)) = 0 := by
  decide

/-- C2 (amended): for every configuration and transport behaviour, one
dispatch attempts exactly the channels of `attemptedChannels` — every
configured chat channel (discord/telegram/slack/webhook) exactly once,
plus only the first configured provider of the email group and of the SMS
group — no channel is ever attempted twice, an unconfigured channel is
never attempted, the attempted-channel sequence does not depend on any
channel's outcome (so a raising channel never short-circuits the others),
and each attempted channel's recorded outcome is its own transport's
verdict. -/
theorem C2_dispatcher_contract (cfg : NotifConfig) (t : Transport) :
    ((sendAllNotifications cfg t).map Prod.fst = attemptedChannels cfg)
    ∧ (∀ c, countAttempts c (sendAllNotifications cfg t) ≤ 1)
    ∧ (∀ c, countAttempts c (sendAllNotifications cfg t) = 1 ↔ c ∈ attemptedChannels cfg)
    ∧ (∀ c, cfg.present c = false → countAttempts c (sendAllNotifications cfg t) = 0)
    ∧ (cfg.discord = true → countAttempts Channel.discord (sendAllNotifications cfg t) = 1)
    ∧ (cfg.telegram = true → countAttempts Channel.telegram (sendAllNotifications cfg t) = 1)
    ∧ (cfg.slack = true → countAttempts Channel.slack (sendAllNotifications cfg t) = 1)
    ∧ (cfg.webhook = true → countAttempts Channel.webhook (sendAllNotifications cfg t) = 1)
    ∧ (∀ t' : Transport,
        (sendAllNotifications cfg t').map Prod.fst = (sendAllNotifications cfg t).map Prod.fst)
    ∧ (∀ p ∈ sendAllNotifications cfg t, p.2 = t p.1) := by
  refine ⟨sendAll_map_fst cfg t, count_attempted_le_one cfg t,
    count_attempted_eq_one_iff cfg t, ?_, ?_, ?_, ?_, ?_, ?_, sendAll_outcomes cfg t⟩
  · intro c hc
    rw [countAttempts, sendAll_map_fst]
    refine List.count_eq_zero.mpr ?_
    intro hmem
    rw [mem_attempted_present cfg c hmem] at hc
    cases hc
  · intro h
    refine (count_attempted_eq_one_iff cfg t Channel.discord).mpr ?_
    simp [attemptedChannels, h]
  · intro h
    refine (count_attempted_eq_one_iff cfg t Channel.telegram).mpr ?_
    simp [attemptedChannels, h]
  · intro h
    refine (count_attempted_eq_one_iff cfg t Channel.slack).mpr ?_
    simp [attemptedChannels, h]
  · intro h
    refine (count_attempted_eq_one_iff cfg t Channel.webhook).mpr ?_
    simp [attemptedChannels, h]
  · intro t'
    rw [sendAll_map_fst cfg t, sendAll_map_fst cfg t']

/-- Witness for C2's amended theorem at a fully configured dispatcher whose
discord transport raises. -/
theorem C2_dispatcher_contract_witness :
    countAttempts Channel.discord
      (sendAllNotifications
        ⟨true, true, true, true, true, true, true, true, true, true, true⟩
        (fun _ => Outcome.raised)) = 1
    ∧ countAttempts Channel.webhook
      (sendAllNotifications
        ⟨true, true, true, true, true, true, true, true, true, true, true⟩
        (fun _ => Outcome.raised)) = 1 := by
  have h := C2_dispatcher_contract
    ⟨true, true, true, true, true, true, true, true, true, true, true⟩
    (fun _ => Outcome.raised)
  exact ⟨h.2.2.2.2.1 rfl, h.2.2.2.2.2.2.2.1 rfl⟩

/-- C10: within the email channel category `send_temporary_email` invokes
only the first configured provider in the fixed order mailgun, sendgrid,
temp_gmail, mailtrap, and the later-configured email providers are never
invoked; likewise `send_sms` invokes only the first configured of twilio,
textbelt, smsapi. -/
theorem C10_provider_priority (cfg : NotifConfig) (t : Transport) :
    (2 ≤ (emailOrder.filter cfg.present).length →
      ((sendTemporaryEmail cfg t).map Prod.fst
          = ((emailOrder.filter cfg.present).head?).toList
        ∧ ∀ c ∈ (emailOrder.filter cfg.present).tail,
            countAttempts c (sendTemporaryEmail cfg t) = 0))
    ∧ (2 ≤ (smsOrder.filter cfg.present).length →
      ((sendSms cfg t).map Prod.fst
          = ((smsOrder.filter cfg.present).head?).toList
        ∧ ∀ c ∈ (smsOrder.filter cfg.present).tail,
            countAttempts c (sendSms cfg t) = 0)) := by
  constructor
  · intro _
    have hmap : (sendTemporaryEmail cfg t).map Prod.fst = (emailProvider cfg).toList := by
      unfold sendTemporaryEmail
      cases emailProvider cfg <;> simp
    refine ⟨by rw [hmap, emailProvider_eq_head], ?_⟩
    intro c hc
    have hnodup : (emailOrder.filter cfg.present).Nodup :=
      (by decide : emailOrder.Nodup).filter _
    cases hl : emailOrder.filter cfg.present with
    | nil => rw [hl] at hc; simp at hc
    | cons hd tl =>
      rw [hl] at hc
      simp only [List.tail_cons] at hc
      have hne : c ≠ hd := by
        rw [hl] at hnodup
        intro heq
        subst heq
        exact (List.nodup_cons.mp hnodup).1 hc
      have hp : emailProvider cfg = some hd := by
        rw [emailProvider_eq_head, hl]
        rfl
      rw [countAttempts]
      unfold sendTemporaryEmail
      rw [hp]
      refine List.count_eq_zero.mpr ?_
      simp [hne]
  · intro _
    have hmap : (sendSms cfg t).map Prod.fst = (smsProvider cfg).toList := by
      unfold sendSms
      cases smsProvider cfg <;> simp
    refine ⟨by rw [hmap, smsProvider_eq_head], ?_⟩
    intro c hc
    have hnodup : (smsOrder.filter cfg.present).Nodup :=
      (by decide : smsOrder.Nodup).filter _
    cases hl : smsOrder.filter cfg.present with
    | nil => rw [hl] at hc; simp at hc
    | cons hd tl =>
      rw [hl] at hc
      simp only [List.tail_cons] at hc
      have hne : c ≠ hd := by
        rw [hl] at hnodup
        intro heq
        subst heq
        exact (List.nodup_cons.mp hnodup).1 hc
      have hp : smsProvider cfg = some hd := by
        rw [smsProvider_eq_head, hl]
        rfl
      rw [countAttempts]
      unfold sendSms
      rw [hp]
      refine List.count_eq_zero.mpr ?_
      simp [hne]

/-- Witness for C10 at a configuration with two email providers and two
SMS providers. -/
theorem C10_provider_priority_witness :
    2 ≤ (emailOrder.filter (NotifConfig.present
        ⟨true, true, false, false, true, true, false, false, false, false, false⟩)).length
    ∧ countAttempts Channel.sendgrid
        (sendTemporaryEmail
          ⟨true, true, false, false, true, true, false, false, false, false, false⟩
          (fun _ => Outcome.ok)) = 0
    ∧ 2 ≤ (smsOrder.filter (NotifConfig.present
        ⟨true, true, false, false, true, true, false, false, false, false, false⟩)).length
    ∧ countAttempts Channel.textbelt
        (sendSms
          ⟨true, true, false, false, true, true, false, false, false, false, false⟩
          (fun _ => Outcome.ok)) = 0 := by
  have h := C10_provider_priority
    ⟨true, true, false, false, true, true, false, false, false, false, false⟩
    (fun _ => Outcome.ok)
  refine ⟨by decide, ?_, by decide, ?_⟩
  · exact (h.1 (by decide)).2 Channel.sendgrid (by decide)
  · exact (h.2 (by decide)).2 Channel.textbelt (by decide)

theorem strContains_data_parts (m x : String) (pre post : List Char)
    (hm : m.data = pre ++ (x.data ++ post)) : strContains m x = true := by
  unfold strContains
  rw [hm]
  exact charsContain_append_right _ _ _ (charsContain_here _ _)

/-- C4: for every cycle that reaches the comparison with no prior cached
observation (the cache read returns `None`), exactly one cache write occurs
and zero notifications are dispatched, regardless of the extracted content
— in both the requests-based monitor and the Playwright variant. -/
theorem C4_first_run :
    (∀ (env : MonitorEnv) (html currentText : String),
      env.fetched = some html → html ≠ "" →
      extractTargetText env.keywords env.minLength (env.parseHtml html) = some currentText →
      currentText ≠ "" →
      getCachedContent env.cache = none →
      (checkForChanges env).writes
          = [saveCachedContent currentText (env.hashFn currentText) env.now env.url]
        ∧ (checkForChanges env).dispatches = [])
    ∧ (∀ benv : BrowserEnv, browserGetCached benv.cache = none →
        browserMain benv
          = .ok { writes := [browserSave benv.combined (benv.hashFn benv.combined) benv.now],
                  notifs := [] }) := by
  constructor
  · intro env html currentText hf hh he hc hcache
    constructor <;> simp [checkForChanges, hf, hh, he, hc, hcache]
  · intro benv h
    simp [browserMain, h]

/-- Witness for C4 at a concrete first-run cycle in each variant. -/
theorem C4_first_run_witness :
    (checkForChanges
        { fetched := some "<p>x</p>",
          parseHtml := fun _ => [Node.elem "p" [Node.text "fresh content"]],
          keywords := [], minLength := 0, url := "http://u", now := "T1",
          hashFn := fun s => s, cache := CacheRead.missing }).writes
      = [saveCachedContent "fresh content" "fresh content" "T1" "http://u"]
    ∧ (checkForChanges
        { fetched := some "<p>x</p>",
          parseHtml := fun _ => [Node.elem "p" [Node.text "fresh content"]],
          keywords := [], minLength := 0, url := "http://u", now := "T1",
          hashFn := fun s => s, cache := CacheRead.missing }).dispatches = []
    ∧ browserMain
        { combined := "c", cache := BCacheRead.missing, now := "T1",
          hashFn := fun s => s,
          cfg := ⟨false, false, false, false, false, false, false, false, false,
            false, false⟩ }
      = .ok { writes := [browserSave "c" "c" "T1"], notifs := [] } := by
  have h := C4_first_run.1
    { fetched := some "<p>x</p>",
      parseHtml := fun _ => [Node.elem "p" [Node.text "fresh content"]],
      keywords := [], minLength := 0, url := "http://u", now := "T1",
      hashFn := fun s => s, cache := CacheRead.missing }
    "<p>x</p>" "fresh content" rfl (by decide) (by decide) (by decide) rfl
  have h2 := C4_first_run.2
    { combined := "c", cache := BCacheRead.missing, now := "T1",
      hashFn := fun s => s,
      cfg := ⟨false, false, false, false, false, false, false, false, false,
        false, false⟩ } rfl
  exact ⟨h.1, h.2, h2⟩

/-- C5: a cycle whose page fetch fails, or whose extractor returns
`NotFound`, aborts before the comparison: the cycle performs no cache write
and no dispatch, so the persisted cache is untouched. -/
theorem C5_failed_cycle :
    (∀ env : MonitorEnv, env.fetched = none →
      checkForChanges env = { writes := [], dispatches := [] })
    ∧ (∀ (env : MonitorEnv) (html : String), env.fetched = some html →
      extractTargetText env.keywords env.minLength (env.parseHtml html) = none →
      checkForChanges env = { writes := [], dispatches := [] }) := by
  constructor
  · intro env h
    simp [checkForChanges, h]
  · intro env html hf he
    by_cases hh : html = "" <;> simp [checkForChanges, hf, hh, he]

/-- Witness for C5: the document has no text node matching the keywords,
the extractor returns `NotFound`, and the cycle leaves the good cache entry
alone. -/
theorem C5_failed_cycle_witness :
    extractTargetText ["Chers parents"] 50
        ((fun (_ : String) => [Node.elem "p" [Node.text "short"]]) "<p>short</p>") = none
    ∧ checkForChanges
        { fetched := some "<p>short</p>",
          parseHtml := fun _ => [Node.elem "p" [Node.text "short"]],
          keywords := ["Chers parents"], minLength := 50, url := "u", now := "T",
          hashFn := fun s => s,
          cache := CacheRead.parsed ⟨some "good", some "good", some "T0", some "u"⟩ }
      = { writes := [], dispatches := [] } := by
  refine ⟨by decide, ?_⟩
  exact C5_failed_cycle.2
    { fetched := some "<p>short</p>",
      parseHtml := fun _ => [Node.elem "p" [Node.text "short"]],
      keywords := ["Chers parents"], minLength := 50, url := "u", now := "T",
      hashFn := fun s => s,
      cache := CacheRead.parsed ⟨some "good", some "good", some "T0", some "u"⟩ }
    "<p>short</p>" rfl (by decide)

/-- Composition of one changed cycle with the dispatcher: the channel
attempts performed across the cycle's dispatcher invocations. -/
def cycleChannelAttempts (env : MonitorEnv) (cfg : NotifConfig) (t : Transport) :
    List (Channel × Outcome) :=
  (((checkForChanges env).dispatches).map (fun _ => sendAllNotifications cfg t)).flatten

/-- C1 (counterexample): a changed cycle performs exactly one dispatch, but
with both `mailgun` and `sendgrid` configured the dispatch does not cover
all configured channels — `sendgrid` is present yet never attempted — so
"exactly one dispatch covering all configured channels" fails as stated. -/
theorem C1_counterexample :
    (checkForChanges
        { fetched := some "<html>",
          parseHtml := fun _ => [Node.text "fresh new content"],
          keywords := [], minLength := 0, url := "u", now := "T1",
          hashFn := fun s => s,
          cache := CacheRead.parsed
            ⟨some "old content", some "old content", some "T0", some "u"⟩ }).dispatches.length
      = 1
    ∧ NotifConfig.present
        ⟨true, true, false, false, false, false, false, false, false, false, false⟩
        Channel.sendgrid = true
    ∧ countAttempts Channel.sendgrid
        (cycleChannelAttempts
          { fetched := some "<html>",
            parseHtml := fun _ => [Node.text "fresh new content"],
            keywords := [], minLength := 0, url := "u", now := "T1",
            hashFn := fun s => s,
            cache := CacheRead.parsed
              ⟨some "old content", some "old content", some "T0", some "u"⟩ }
          ⟨true, true, false, false, false, false, false, false, false, false, false⟩
          (fun _ => Outcome.ok)) = 0 := by
  refine ⟨by decide, by decide, by decide⟩

/-- C1 (amended): for every cycle whose cached fingerprint differs from the
fingerprint of the currently extracted content, exactly one dispatcher
invocation occurs, its message embeds the previous content, the new
content, the URL and the timestamp, the cache slot is overwritten with the
new content and its fingerprint, and the channels attempted across the
cycle are exactly `attemptedChannels` — every configured chat channel plus
the first configured provider of the email group and of the SMS group. -/
theorem C1_change_invariant (env : MonitorEnv) (cfg : NotifConfig) (t : Transport)
    (html currentText : String) (cachedData : CacheDict)
    (hf : env.fetched = some html) (hh : html ≠ "")
    (he : extractTargetText env.keywords env.minLength (env.parseHtml html)
      = some currentText)
    (hc : currentText ≠ "")
    (hcache : getCachedContent env.cache = some cachedData)
    (hdiff : cachedData.hash ≠ some (env.hashFn currentText)) :
    (checkForChanges env).dispatches
        = [⟨changeSubject,
            buildChangeMessage env.url env.now (cachedData.text.getD "") currentText⟩]
    ∧ (checkForChanges env).writes
        = [saveCachedContent currentText (env.hashFn currentText) env.now env.url]
    ∧ (cycleChannelAttempts env cfg t).map Prod.fst = attemptedChannels cfg
    ∧ strContains
        (buildChangeMessage env.url env.now (cachedData.text.getD "") currentText)
        env.url = true
    ∧ strContains
        (buildChangeMessage env.url env.now (cachedData.text.getD "") currentText)
        env.now = true
    ∧ strContains
        (buildChangeMessage env.url env.now (cachedData.text.getD "") currentText)
        (cachedData.text.getD "") = true
    ∧ strContains
        (buildChangeMessage env.url env.now (cachedData.text.getD "") currentText)
        currentText = true := by
  have hcond : some (env.hashFn currentText) ≠ cachedData.hash := fun hEq => hdiff hEq.symm
  have hres : checkForChanges env
      = { writes := [saveCachedContent currentText (env.hashFn currentText) env.now env.url],
          dispatches := [⟨changeSubject,
            buildChangeMessage env.url env.now (cachedData.text.getD "") currentText⟩] } := by
    simp [checkForChanges, hf, hh, he, hc, hcache, hcond]
  refine ⟨by rw [hres], by rw [hres], ?_, ?_, ?_, ?_, ?_⟩
  · rw [cycleChannelAttempts, hres]
    simp [sendAll_map_fst]
  · refine strContains_data_parts _ _
      "Content change detected on the PUC swimming website!\n\nURL: ".data
      ("\nTimestamp: " ++ env.now ++ "\n\nPREVIOUS CONTENT:\n"
        ++ (cachedData.text.getD "") ++ "\n\nNEW CONTENT:\n" ++ currentText
        ++ "\n\nThis is an automated alert from your website monitor.\n").data ?_
    simp [buildChangeMessage, String.data_append, List.append_assoc]
  · refine strContains_data_parts _ _
      ("Content change detected on the PUC swimming website!\n\nURL: "
        ++ env.url ++ "\nTimestamp: ").data
      ("\n\nPREVIOUS CONTENT:\n" ++ (cachedData.text.getD "")
        ++ "\n\nNEW CONTENT:\n" ++ currentText
        ++ "\n\nThis is an automated alert from your website monitor.\n").data ?_
    simp [buildChangeMessage, String.data_append, List.append_assoc]
  · refine strContains_data_parts _ _
      ("Content change detected on the PUC swimming website!\n\nURL: "
        ++ env.url ++ "\nTimestamp: " ++ env.now ++ "\n\nPREVIOUS CONTENT:\n").data
      ("\n\nNEW CONTENT:\n" ++ currentText
        ++ "\n\nThis is an automated alert from your website monitor.\n").data ?_
    simp [buildChangeMessage, String.data_append, List.append_assoc]
  · refine strContains_data_parts _ _
      ("Content change detected on the PUC swimming website!\n\nURL: "
        ++ env.url ++ "\nTimestamp: " ++ env.now ++ "\n\nPREVIOUS CONTENT:\n"
        ++ (cachedData.text.getD "") ++ "\n\nNEW CONTENT:\n").data
      ("\n\nThis is an automated alert from your website monitor.\n".data) ?_
    simp [buildChangeMessage, String.data_append, List.append_assoc]

/-- Witness for C1's amended theorem at a concrete changed cycle. -/
theorem C1_change_invariant_witness :
    (checkForChanges
        { fetched := some "<html>",
          parseHtml := fun _ => [Node.text "fresh new content"],
          keywords := [], minLength := 0, url := "u", now := "T1",
          hashFn := fun s => s,
          cache := CacheRead.parsed
            ⟨some "old content", some "old content", some "T0", some "u"⟩ }).dispatches
      = [⟨changeSubject, buildChangeMessage "u" "T1" "old content" "fresh new content"⟩]
    ∧ (cycleChannelAttempts
        { fetched := some "<html>",
          parseHtml := fun _ => [Node.text "fresh new content"],
          keywords := [], minLength := 0, url := "u", now := "T1",
          hashFn := fun s => s,
          cache := CacheRead.parsed
            ⟨some "old content", some "old content", some "T0", some "u"⟩ }
        ⟨false, false, false, false, false, false, false, true, true, false, false⟩
        (fun _ => Outcome.ok)).map Prod.fst
      = attemptedChannels
          ⟨false, false, false, false, false, false, false, true, true, false, false⟩ := by
  have h := C1_change_invariant
    { fetched := some "<html>",
      parseHtml := fun _ => [Node.text "fresh new content"],
      keywords := [], minLength := 0, url := "u", now := "T1",
      hashFn := fun s => s,
      cache := CacheRead.parsed
        ⟨some "old content", some "old content", some "T0", some "u"⟩ }
    ⟨false, false, false, false, false, false, false, true, true, false, false⟩
    (fun _ => Outcome.ok)
    "<html>" "fresh new content"
    ⟨some "old content", some "old content", some "T0", some "u"⟩
    rfl (by decide) (by decide) (by decide) rfl (by decide)
  exact ⟨h.1, h.2.2.1⟩

/-- C3 (counterexample): an UNCHANGED cycle of the requests-based monitor —
cache present and its fingerprint equal to the fingerprint of the currently
extracted content — performs no cache write at all: the observation is not
persisted and the cached timestamp is not refreshed. -/
theorem C3_counterexample :
    extractTargetText [] 0
        ((fun (_ : String) => [Node.text " old  content  here "]) "<html>")
      = some "old content here"
    ∧ getCachedContent (CacheRead.parsed
        ⟨some "old content here", some "old content here", some "T0", some "u"⟩)
      = some ⟨some "old content here", some "old content here", some "T0", some "u"⟩
    ∧ checkForChanges
        { fetched := some "<html>",
          parseHtml := fun _ => [Node.text " old  content  here "],
          keywords := [], minLength := 0, url := "u", now := "T1",
          hashFn := fun s => s,
          cache := CacheRead.parsed
            ⟨some "old content here", some "old content here", some "T0", some "u"⟩ }
      = { writes := [], dispatches := [] } := by
  refine ⟨by decide, rfl, by decide⟩

/-- C3 (amended): the two monitor variants disagree on UNCHANGED cycles.
In the requests-based monitor an UNCHANGED cycle performs no cache write
(nothing is persisted, the timestamp is not refreshed).  In the Playwright
variant an UNCHANGED cycle (hash and timestamp fields present) performs
exactly one cache write whose hash field equals the cached hash, whose text
field is the currently extracted content, and whose timestamp field is the
current time — the persist-anyway/refresh-timestamp behaviour of the claim
holds only for that variant (which also sends a no-change heartbeat to the
configured channels). -/
theorem C3_unchanged_policy :
    (∀ (env : MonitorEnv) (html currentText : String) (cachedData : CacheDict),
      env.fetched = some html → html ≠ "" →
      extractTargetText env.keywords env.minLength (env.parseHtml html)
        = some currentText →
      currentText ≠ "" →
      getCachedContent env.cache = some cachedData →
      cachedData.hash = some (env.hashFn currentText) →
      checkForChanges env = { writes := [], dispatches := [] })
    ∧ (∀ (benv : BrowserEnv) (d : BCacheDict) (ts : String),
      browserGetCached benv.cache = some d →
      (d.text.isNone && d.hash.isNone && d.timestamp.isNone) = false →
      d.hash = some (benv.hashFn benv.combined) →
      d.timestamp = some ts →
      browserMain benv
          = .ok { writes := [browserSave benv.combined (benv.hashFn benv.combined) benv.now],
                  notifs := notifyBoth benv.cfg
                    ("No changes detected in course offerings\n" ++ ts) }
        ∧ (browserSave benv.combined (benv.hashFn benv.combined) benv.now).hash = d.hash
        ∧ (browserSave benv.combined (benv.hashFn benv.combined) benv.now).timestamp
            = some benv.now) := by
  constructor
  · intro env html currentText cachedData hf hh he hc hcache hhash
    simp [checkForChanges, hf, hh, he, hc, hcache, hhash]
  · intro benv d ts hr hfalsy hhash hts
    refine ⟨?_, by simp [browserSave, hhash], rfl⟩
    simp [browserMain, hr, hfalsy, hhash, hts]

/-- Witness for C3's amended theorem: one concrete UNCHANGED cycle per
variant. -/
theorem C3_unchanged_policy_witness :
    checkForChanges
        { fetched := some "<html>",
          parseHtml := fun _ => [Node.text " old  content  here "],
          keywords := [], minLength := 0, url := "u", now := "T1",
          hashFn := fun s => s,
          cache := CacheRead.parsed
            ⟨some "old content here", some "old content here", some "T0", some "u"⟩ }
      = { writes := [], dispatches := [] }
    ∧ browserMain
        { combined := "c", cache := BCacheRead.parsed ⟨some "c", some "c", some "T0"⟩,
          now := "T1", hashFn := fun s => s,
          cfg := ⟨false, false, false, false, false, false, false, true, true, false,
            false⟩ }
      = .ok { writes := [browserSave "c" "c" "T1"],
              notifs := notifyBoth
                ⟨false, false, false, false, false, false, false, true, true, false,
                  false⟩
                ("No changes detected in course offerings\nT0") } := by
  constructor
  · exact C3_unchanged_policy.1
      { fetched := some "<html>",
        parseHtml := fun _ => [Node.text " old  content  here "],
        keywords := [], minLength := 0, url := "u", now := "T1",
        hashFn := fun s => s,
        cache := CacheRead.parsed
          ⟨some "old content here", some "old content here", some "T0", some "u"⟩ }
      "<html>" "old content here"
      ⟨some "old content here", some "old content here", some "T0", some "u"⟩
      rfl (by decide) (by decide) (by decide) rfl rfl
  · have h := (C3_unchanged_policy.2
      { combined := "c", cache := BCacheRead.parsed ⟨some "c", some "c", some "T0"⟩,
        now := "T1", hashFn := fun s => s,
        cfg := ⟨false, false, false, false, false, false, false, true, true, false,
          false⟩ }
      ⟨some "c", some "c", some "T0"⟩ "T0" rfl (by decide) rfl rfl).1
    exact h

/-- C9 (counterexample): in the Playwright variant a cache file that parses
to a non-empty object missing the `hash` field makes the cycle fail with a
`KeyError` (`cached_content["hash"]` is a direct subscript) — the missing
schema field is not treated as absent. -/
theorem C9_counterexample :
    browserGetCached (BCacheRead.parsed ⟨some "x", none, some "T0"⟩)
      = some ⟨some "x", none, some "T0"⟩
    ∧ browserMain
        { combined := "c", cache := BCacheRead.parsed ⟨some "x", none, some "T0"⟩,
          now := "T1", hashFn := fun s => s,
          cfg := ⟨false, false, false, false, false, false, false, false, false,
            false, false⟩ }
      = .error "KeyError: hash" := by
  exact ⟨rfl, rfl⟩

/-- C9 (amended): cache read is lenient in both variants — `read` returns
`None` both when no persisted observation exists and when the persisted
data cannot be parsed, and the two cases drive the cycle identically
(forcing a re-baseline).  In the requests-based monitor a parsed cache
missing the `hash` field is tolerated (`.get` defaults): the cycle
completes, classified as changed because the digest differs from `None`.
In the Playwright variant a corrupt or missing cache likewise re-baselines,
but a parsed non-empty cache missing the `hash` field raises `KeyError`
and fails the cycle. -/
theorem C9_cache_read_leniency :
    (getCachedContent CacheRead.missing = none
      ∧ getCachedContent CacheRead.corrupt = none)
    ∧ (∀ env : MonitorEnv,
        checkForChanges { env with cache := CacheRead.corrupt }
          = checkForChanges { env with cache := CacheRead.missing })
    ∧ (∀ (env : MonitorEnv) (html currentText : String) (cachedData : CacheDict),
        env.fetched = some html → html ≠ "" →
        extractTargetText env.keywords env.minLength (env.parseHtml html)
          = some currentText →
        currentText ≠ "" →
        getCachedContent env.cache = some cachedData →
        cachedData.hash = none →
        checkForChanges env
          = { writes := [saveCachedContent currentText (env.hashFn currentText)
                env.now env.url],
              dispatches := [⟨changeSubject,
                buildChangeMessage env.url env.now (cachedData.text.getD "")
                  currentText⟩] })
    ∧ (browserGetCached BCacheRead.missing = none
      ∧ browserGetCached BCacheRead.corrupt = none)
    ∧ (∀ benv : BrowserEnv, browserGetCached benv.cache = none →
        browserMain benv
          = .ok { writes := [browserSave benv.combined (benv.hashFn benv.combined)
                    benv.now],
                  notifs := [] })
    ∧ (∀ (benv : BrowserEnv) (d : BCacheDict),
        browserGetCached benv.cache = some d →
        (d.text.isNone && d.hash.isNone && d.timestamp.isNone) = false →
        d.hash = none →
        browserMain benv = .error "KeyError: hash") := by
  refine ⟨⟨rfl, rfl⟩, ?_, ?_, ⟨rfl, rfl⟩, ?_, ?_⟩
  · intro env
    simp [checkForChanges, getCachedContent]
  · intro env html currentText cachedData hf hh he hc hcache hhash
    simp [checkForChanges, hf, hh, he, hc, hcache, hhash]
  · intro benv h
    simp [browserMain, h]
  · intro benv d hr hfalsy hhash
    simp only [browserMain, hr]
    rw [hfalsy]
    simp [hhash]

/-- Witness for C9's amended theorem: a corrupt cache behaves exactly like
a missing one, and the requests-based monitor survives a parsed cache
without a `hash` field. -/
theorem C9_cache_read_leniency_witness :
    checkForChanges
        { fetched := some "<html>",
          parseHtml := fun _ => [Node.text "fresh content"],
          keywords := [], minLength := 0, url := "u", now := "T1",
          hashFn := fun s => s, cache := CacheRead.corrupt }
      = checkForChanges
        { fetched := some "<html>",
          parseHtml := fun _ => [Node.text "fresh content"],
          keywords := [], minLength := 0, url := "u", now := "T1",
          hashFn := fun s => s, cache := CacheRead.missing }
    ∧ checkForChanges
        { fetched := some "<html>",
          parseHtml := fun _ => [Node.text "fresh content"],
          keywords := [], minLength := 0, url := "u", now := "T1",
          hashFn := fun s => s,
          cache := CacheRead.parsed ⟨some "old", none, some "T0", some "u"⟩ }
      = { writes := [saveCachedContent "fresh content" "fresh content" "T1" "u"],
          dispatches := [⟨changeSubject,
            buildChangeMessage "u" "T1" "old" "fresh content"⟩] } := by
  constructor
  · exact C9_cache_read_leniency.2.1
      { fetched := some "<html>",
        parseHtml := fun _ => [Node.text "fresh content"],
        keywords := [], minLength := 0, url := "u", now := "T1",
        hashFn := fun s => s, cache := CacheRead.missing }
  · exact C9_cache_read_leniency.2.2.1
      { fetched := some "<html>",
        parseHtml := fun _ => [Node.text "fresh content"],
        keywords := [], minLength := 0, url := "u", now := "T1",
        hashFn := fun s => s,
        cache := CacheRead.parsed ⟨some "old", none, some "T0", some "u"⟩ }
      "<html>" "fresh content" ⟨some "old", none, some "T0", some "u"⟩
      rfl (by decide) (by decide) (by decide) rfl rfl

theorem assignParts_heading (c : Course) (parts : List String) :
    (assignParts c parts).heading = c.heading := by
  unfold assignParts
  split <;> rfl

theorem assignParts_activity (c : Course) (parts : List String) :
    (assignParts c parts).activity
      = if 2 ≤ parts.length then parts[0]? else c.activity := by
  unfold assignParts
  split
  next h => simp [h]
  next h => simp [h]

theorem assignParts_code (c : Course) (parts : List String) :
    (assignParts c parts).code
      = if 2 ≤ parts.length then parts[1]? else c.code := by
  unfold assignParts
  split
  next h => simp [h]
  next h => simp [h]

theorem assignParts_description (c : Course) (parts : List String) :
    (assignParts c parts).description
      = if 3 ≤ parts.length then parts[2]? else c.description := by
  unfold assignParts
  split
  next h =>
    by_cases h3 : 3 ≤ parts.length <;> simp [h3]
  next h =>
    have h3 : ¬ 3 ≤ parts.length := fun hx => h (by omega)
    simp [h3]

theorem assignParts_schedule (c : Course) (parts : List String) :
    (assignParts c parts).schedule
      = if 4 ≤ parts.length then parts[3]? else c.schedule := by
  unfold assignParts
  split
  next h =>
    by_cases h4 : 4 ≤ parts.length <;> simp [h4]
  next h =>
    have h4 : ¬ 4 ≤ parts.length := fun hx => h (by omega)
    simp [h4]

theorem initCourse_heading (cand : Candidate) :
    (initCourse cand).heading = cand.text := by
  unfold initCourse
  rw [assignParts_heading]

theorem initCourse_description (cand : Candidate) :
    (initCourse cand).description
      = if 3 ≤ (splitPartsOf cand.text).length
        then (splitPartsOf cand.text)[2]? else none := by
  unfold initCourse
  rw [assignParts_description]

theorem initCourse_schedule (cand : Candidate) :
    (initCourse cand).schedule
      = if 4 ≤ (splitPartsOf cand.text).length
        then (splitPartsOf cand.text)[3]? else none := by
  unfold initCourse
  rw [assignParts_schedule]

theorem cleanCourse_heading (c : Course) :
    (cleanCourse c).heading = cleanHeading c.heading := by
  unfold cleanCourse
  rw [assignParts_heading]

theorem cleanCourse_activity (c : Course) :
    (cleanCourse c).activity
      = if 2 ≤ (splitPartsOf (cleanHeading c.heading)).length
        then (splitPartsOf (cleanHeading c.heading))[0]? else c.activity := by
  unfold cleanCourse
  rw [assignParts_activity]

theorem cleanCourse_code (c : Course) :
    (cleanCourse c).code
      = if 2 ≤ (splitPartsOf (cleanHeading c.heading)).length
        then (splitPartsOf (cleanHeading c.heading))[1]? else c.code := by
  unfold cleanCourse
  rw [assignParts_code]

theorem cleanCourse_description (c : Course) :
    (cleanCourse c).description
      = if 3 ≤ (splitPartsOf (cleanHeading c.heading)).length
        then (splitPartsOf (cleanHeading c.heading))[2]? else c.description := by
  unfold cleanCourse
  rw [assignParts_description]

theorem cleanCourse_schedule (c : Course) :
    (cleanCourse c).schedule
      = if 4 ≤ (splitPartsOf (cleanHeading c.heading)).length
        then (splitPartsOf (cleanHeading c.heading))[3]? else c.schedule := by
  unfold cleanCourse
  rw [assignParts_schedule]

/-- C8 (counterexample): the heading of the spec's example is cleaned to
`"NATATION | N123 | Initiation | Lundi 18h |"` — the currency strip keeps
everything before the first `€` and only trims whitespace, so a trailing
delimiter survives — not to the claimed
`"NATATION | N123 | Initiation | Lundi 18h"`. -/
theorem C8_counterexample :
    cleanHeading "NATATION | N123 | Initiation | Lundi 18h | €120 S\x27inscrire"
      = "NATATION | N123 | Initiation | Lundi 18h |"
    ∧ cleanHeading "NATATION | N123 | Initiation | Lundi 18h | €120 S\x27inscrire"
      ≠ "NATATION | N123 | Initiation | Lundi 18h" := by
  exact ⟨by decide, by decide⟩

/-- C8 (amended): the example heading is cleaned to
`"NATATION | N123 | Initiation | Lundi 18h |"` (with a trailing delimiter)
and still parses into the record
`{activity: NATATION, code: N123, description: Initiation, schedule: Lundi
18h}` (the empty fifth segment is ignored).  In general, when the cleaned
heading splits into at least two `|`-separated segments the record's fields
are assigned positionally from it, and a field beyond the segments present
in both the raw and the cleaned headings is absent (`none`), never the
empty string. -/
theorem C8_heading_parse :
    (cleanHeading "NATATION | N123 | Initiation | Lundi 18h | €120 S\x27inscrire"
      = "NATATION | N123 | Initiation | Lundi 18h |"
    ∧ (cleanCourse (initCourse ⟨"sel",
        "NATATION | N123 | Initiation | Lundi 18h | €120 S\x27inscrire",
        none, none, none⟩)).activity = some "NATATION"
    ∧ (cleanCourse (initCourse ⟨"sel",
        "NATATION | N123 | Initiation | Lundi 18h | €120 S\x27inscrire",
        none, none, none⟩)).code = some "N123"
    ∧ (cleanCourse (initCourse ⟨"sel",
        "NATATION | N123 | Initiation | Lundi 18h | €120 S\x27inscrire",
        none, none, none⟩)).description = some "Initiation"
    ∧ (cleanCourse (initCourse ⟨"sel",
        "NATATION | N123 | Initiation | Lundi 18h | €120 S\x27inscrire",
        none, none, none⟩)).schedule = some "Lundi 18h")
    ∧ (∀ cand : Candidate,
      (cleanCourse (initCourse cand)).heading = cleanHeading cand.text
      ∧ (2 ≤ (splitPartsOf (cleanHeading cand.text)).length →
          (cleanCourse (initCourse cand)).activity
              = (splitPartsOf (cleanHeading cand.text))[0]?
            ∧ (cleanCourse (initCourse cand)).code
              = (splitPartsOf (cleanHeading cand.text))[1]?)
      ∧ (3 ≤ (splitPartsOf (cleanHeading cand.text)).length →
          (cleanCourse (initCourse cand)).description
            = (splitPartsOf (cleanHeading cand.text))[2]?)
      ∧ (4 ≤ (splitPartsOf (cleanHeading cand.text)).length →
          (cleanCourse (initCourse cand)).schedule
            = (splitPartsOf (cleanHeading cand.text))[3]?)
      ∧ (¬ 3 ≤ (splitPartsOf cand.text).length →
          ¬ 3 ≤ (splitPartsOf (cleanHeading cand.text)).length →
          (cleanCourse (initCourse cand)).description = none)
      ∧ (¬ 4 ≤ (splitPartsOf cand.text).length →
          ¬ 4 ≤ (splitPartsOf (cleanHeading cand.text)).length →
          (cleanCourse (initCourse cand)).schedule = none)) := by
  constructor
  · exact ⟨by decide, by decide, by decide, by decide, by decide⟩
  · intro cand
    refine ⟨?_, ?_, ?_, ?_, ?_, ?_⟩
    · rw [cleanCourse_heading, initCourse_heading]
    · intro h2
      constructor
      · rw [cleanCourse_activity, initCourse_heading, if_pos h2]
      · rw [cleanCourse_code, initCourse_heading, if_pos h2]
    · intro h3
      rw [cleanCourse_description, initCourse_heading, if_pos h3]
    · intro h4
      rw [cleanCourse_schedule, initCourse_heading, if_pos h4]
    · intro hr hcl
      rw [cleanCourse_description, initCourse_heading, if_neg hcl,
        initCourse_description, if_neg hr]
    · intro hr hcl
      rw [cleanCourse_schedule, initCourse_heading, if_neg hcl,
        initCourse_schedule, if_neg hr]

/-- Witness for C8's amended theorem at a heading with three segments. -/
theorem C8_heading_parse_witness :
    2 ≤ (splitPartsOf (cleanHeading "NATATION | N1 | Cours")).length
    ∧ (cleanCourse (initCourse ⟨"s", "NATATION | N1 | Cours", none, none,
        none⟩)).activity
      = (splitPartsOf (cleanHeading "NATATION | N1 | Cours"))[0]?
    ∧ (¬ 4 ≤ (splitPartsOf "NATATION | N1 | Cours").length
      ∧ (cleanCourse (initCourse ⟨"s", "NATATION | N1 | Cours", none, none,
          none⟩)).schedule = none) := by
  have h := C8_heading_parse.2 ⟨"s", "NATATION | N1 | Cours", none, none, none⟩
  refine ⟨by decide, (h.2.1 (by decide)).1, by decide, ?_⟩
  exact h.2.2.2.2.2 (by decide) (by decide)

end WebMonitoringBots
